import Mathlib

/-!
Verification of the ft-tool-system backend: the job lifecycle state machine,
the multi-stage AI generation pipeline (`services/ai/pipeline.ts`), the QA
quality gate (`services/ai/agents/qa.ts`), the template-decider output
normalization (`services/ai/agents/templateDecider.ts`), and the generation
routes (`routes/generate.ts`).

External AI calls are modelled as oracles (`Except`-valued function fields of
`PipelineEnv`); a thrown JavaScript exception is modelled as `Except.error`
carrying the exception message.
-/

namespace FTTool

/-- Job statuses. `models/job.ts` is not part of the provided sources; the
constructors are the statuses referenced by `routes/generate.ts` together
with the approval statuses of the V4 architecture document. Per the comment
in `routes/generate.ts` (`JobStatus.SENT // Using SENT as PROCESSING
equivalent`), `SENT` is the in-flight/processing status. -/
inductive JobStatus
  | DRAFT
  | SENT
  | READY_FOR_REVIEW
  | FACTORY_FAILED
  | APPROVED
  | REJECTED
deriving DecidableEq

/-- Actors that may initiate a state transition (`ActorType` in
`services/stateMachine.ts`, referenced from `routes/generate.ts`). -/
inductive ActorType
  | BOSS
  | SYSTEM
  | AI
deriving DecidableEq

/-- A job record. `models/job.ts` is not in the provided sources; the fields
kept here are the ones read or written by `routes/generate.ts`. -/
structure Job where
  job_id : String
  status : JobStatus
  tool_html : Option String := none
  failure_reason : Option String := none
  revision_count : Nat := 0
deriving DecidableEq

/-- Modelled from the spec: `services/stateMachine.ts` is not in the provided
sources (only its caller `routes/generate.ts` is), so the illegal-transition
error is taken from spec section 4.2: `TransitionError` carries from, to and
actor. -/
structure TransitionError where
  fromStatus : JobStatus
  toStatus : JobStatus
  actor : ActorType
deriving DecidableEq

/-- Modelled from the spec: the transition legality table of spec section
4.2, with `SENT` standing for the processing status (see `JobStatus`).
`services/stateMachine.ts` is not in the provided sources. -/
def allowedTransition (f t : JobStatus) (actor : ActorType) : Bool :=
  match f, t, actor with
  | .DRAFT, .SENT, .SYSTEM => true
  | .SENT, .READY_FOR_REVIEW, .SYSTEM => true
  | .SENT, .FACTORY_FAILED, .SYSTEM => true
  | .READY_FOR_REVIEW, .APPROVED, .BOSS => true
  | .READY_FOR_REVIEW, .SENT, .BOSS => true
  | .READY_FOR_REVIEW, .REJECTED, .BOSS => true
  | .FACTORY_FAILED, .SENT, .BOSS => true
  | .FACTORY_FAILED, .SENT, .SYSTEM => true
  | _, _, _ => false

/-- The rows of the spec section 4.2 transition table as explicit triples
(from, to, actor), for comparison with `allowedTransition`. -/
def transitionTable : List (JobStatus × JobStatus × ActorType) :=
  [ (.DRAFT, .SENT, .SYSTEM),
    (.SENT, .READY_FOR_REVIEW, .SYSTEM),
    (.SENT, .FACTORY_FAILED, .SYSTEM),
    (.READY_FOR_REVIEW, .APPROVED, .BOSS),
    (.READY_FOR_REVIEW, .SENT, .BOSS),
    (.READY_FOR_REVIEW, .REJECTED, .BOSS),
    (.FACTORY_FAILED, .SENT, .BOSS),
    (.FACTORY_FAILED, .SENT, .SYSTEM) ]

/-- Modelled from the spec: `transitionJob` of `services/stateMachine.ts`
(not in the provided sources), as described in spec section 4.2: validate
the (from, to, actor) triple against the table before applying; on an
illegal triple raise `TransitionError` and change nothing. -/
def transitionJob (j : Job) (t : JobStatus) (actor : ActorType) :
    Except TransitionError Job :=
  if allowedTransition j.status t actor then .ok { j with status := t }
  else .error ⟨j.status, t, actor⟩

/-- Modelled from the spec: the observable effect of a transition attempt on
the job record: the updated job on success, the unchanged job plus the error
on rejection (spec section 4.2, failure semantics). -/
def applyTransition (j : Job) (t : JobStatus) (actor : ActorType) :
    Job × Option TransitionError :=
  match transitionJob j t actor with
  | .ok j2 => (j2, none)
  | .error e => (j, some e)

/-- The eight per-criterion scores of a QA report
(`CriteriaScores` in `services/ai/agents/qa.ts`). -/
structure CriteriaScores where
  forces_decision : Int
  zero_instructions : Int
  easy_first_steps : Int
  instant_feedback : Int
  gamification : Int
  visible_results : Int
  commitment_capture : Int
  fast_track_dna : Int
deriving DecidableEq

/-- The criterion scores in object-field order, as produced by
`Object.values(result.criteria_scores)` in `meetsPassThreshold`. -/
def CriteriaScores.values (c : CriteriaScores) : List Int :=
  [ c.forces_decision, c.zero_instructions, c.easy_first_steps,
    c.instant_feedback, c.gamification, c.visible_results,
    c.commitment_capture, c.fast_track_dna ]

/-- A QA report (`QAResult` in `services/ai/agents/qa.ts`); `result` is the
PASS or FAIL label emitted by the QA model itself. The `friction_check`
object is not read by any of the verified logic and is omitted. -/
structure QAResult where
  result : String
  score : Int
  criteria_scores : CriteriaScores
  critical_issues : List String := []
  issues : List String := []
  recommendations : List String := []
deriving DecidableEq

/-- `meetsPassThreshold` from `services/ai/agents/qa.ts`: score at least 85
and no criterion below 60. -/
def meetsPassThreshold (r : QAResult) : Bool :=
  if r.score < 85 then false
  else if r.criteria_scores.values.any (fun s => decide (s < 60)) then false
  else true

/-- Output of the Secretary agent (`SecretaryOutput` in
`services/ai/agents/secretary.ts`); the pipeline reads only the fields it
echoes into progress messages. -/
structure SecretaryOutput where
  tool_name : String
  category : String
deriving DecidableEq

/-- Tool metadata (`ToolSpec.metadata` in `services/ai/agents/builder.ts`). -/
structure ToolMetadata where
  name : String
  slug : String
  category : String
  tagline : String
  estimated_time : String := ""
deriving DecidableEq

/-- A tool specification (`ToolSpec` in `services/ai/agents/builder.ts`).
The pipeline orchestration logic reads only `metadata`; the remaining
sections (`wizard_steps`, `scoring`, `verdict_rules`, `commitment_capture`)
are only echoed into prompts and progress messages and are omitted. -/
structure ToolSpec where
  metadata : ToolMetadata
deriving DecidableEq

/-- One recorded quality-gate attempt (`RevisionEntry` in
`services/ai/pipeline.ts`). -/
structure RevisionEntry where
  attempt : Nat
  score : Int
  passed : Bool
  issues : List String
deriving DecidableEq

/-- The record pushed onto `revisionHistory` for one attempt: note `passed`
is the QA label (`qaResult.result === PASS`), not the gate verdict, and only
the top five issues are kept. -/
def mkRevisionEntry (attempt : Nat) (q : QAResult) : RevisionEntry :=
  ⟨attempt, q.score, q.result == "PASS", q.issues.take 5⟩

/-- The pipeline outcome (`PipelineResult` in `services/ai/pipeline.ts`). -/
structure PipelineResult where
  success : Bool
  toolHtml : Option String := none
  toolName : Option String := none
  toolSlug : Option String := none
  toolDescription : Option String := none
  category : Option String := none
  qaReport : Option QAResult := none
  revisionCount : Nat
  revisionHistory : List RevisionEntry
  spec : Option ToolSpec := none
  error : Option String := none
deriving DecidableEq

/-- The environment of one pipeline run: the configuration check and the
five external agent calls of `services/ai/pipeline.ts`, as oracles. A stage
that throws is an oracle returning `.error` with the exception message. The
QA and feedback oracles are indexed by attempt number and receive the
current HTML (and, for feedback, the QA report), matching the arguments of
`runQA` and `runFeedbackApplier` at the call sites. -/
structure PipelineEnv where
  configValid : Bool
  configMissing : List String := []
  secretary : Except String SecretaryOutput
  builder : Except String ToolSpec
  template : Except String String
  qa : Nat → String → Except String QAResult
  feedback : Nat → String → QAResult → Except String String

/-- The mutable state of the QA/feedback loop in `runToolPipeline`:
the current HTML, the `revisionCount` and `revisionHistory` variables, and
(as verification instrumentation) the number of `runFeedbackApplier`
invocations performed so far. -/
structure LoopState where
  toolHtml : String
  revisionCount : Nat
  revisionHistory : List RevisionEntry
  feedbackCalls : Nat
deriving DecidableEq

/-- How the QA/feedback loop of `runToolPipeline` ends: the gate passed, the
attempts were exhausted, or a stage call threw (escaping to the outer
catch). -/
inductive LoopOutcome
  | passed (st : LoopState) (q : QAResult)
  | exhausted (st : LoopState) (q : QAResult)
  | errored (st : LoopState) (msg : String)
deriving DecidableEq

/-- The `for (let attempt = 1; attempt <= MAX_QA_RETRIES; attempt++)` loop
of `runToolPipeline` (stages 4 and 5). `remaining` counts the iterations
the loop guard still admits (invariant: `remaining + attempt =
maxAttempts + 1` at every call); the loop is entered with `remaining =
maxAttempts`, `attempt = 1`. Each iteration sets `revisionCount := attempt`,
runs QA, records the attempt, exits on a passing gate, and otherwise runs
the feedback applier when `attempt < maxAttempts`. An `.error` from either
oracle aborts to `.errored` (the exception escapes the loop). The
`remaining = 0` base case is reachable only for `maxAttempts = 0`, where the
source dereferences the undefined `qaResult` and the resulting TypeError is
caught like any other exception. -/
def qaLoop (env : PipelineEnv) (maxAttempts : Nat) :
    Nat → Nat → LoopState → LoopOutcome
  | 0, _, st => .errored st "qaResult is undefined"
  | remaining + 1, attempt, st =>
    let st1 := { st with revisionCount := attempt }
    match env.qa attempt st1.toolHtml with
    | .error e => .errored st1 e
    | .ok q =>
      let st2 := { st1 with
        revisionHistory := st1.revisionHistory ++ [mkRevisionEntry attempt q] }
      if meetsPassThreshold q then .passed st2 q
      else if attempt < maxAttempts then
        match env.feedback attempt st2.toolHtml q with
        | .error e => .errored st2 e
        | .ok newHtml =>
          qaLoop env maxAttempts remaining (attempt + 1)
            { st2 with toolHtml := newHtml, feedbackCalls := st2.feedbackCalls + 1 }
      else .exhausted st2 q

/-- The value returned by the outer `catch` block of `runToolPipeline`:
success `false`, the exception message in `error`, the `revisionCount` and
`revisionHistory` accumulated so far, and nothing else. -/
def pipelineCatch (rc : Nat) (hist : List RevisionEntry) (msg : String) :
    PipelineResult :=
  { success := false, revisionCount := rc, revisionHistory := hist,
    error := some msg }

/-- `runToolPipeline` from `services/ai/pipeline.ts`: configuration check,
then Secretary, Builder and Template Decider exactly once each, then the
QA/feedback loop; the whole body sits in one `try` whose `catch` produces
`pipelineCatch`. `maxAttempts` is `MAX_QA_RETRIES` (environment variable
`AI_MAX_RETRIES`, default 3). -/
def runToolPipeline (env : PipelineEnv) (maxAttempts : Nat) : PipelineResult :=
  if env.configValid = false then
    pipelineCatch 0 []
      ("AI not configured: Missing " ++ String.intercalate ", " env.configMissing)
  else
    match env.secretary with
    | .error e => pipelineCatch 0 [] e
    | .ok _ =>
      match env.builder with
      | .error e => pipelineCatch 0 [] e
      | .ok spec =>
        match env.template with
        | .error e => pipelineCatch 0 [] e
        | .ok toolHtml0 =>
          match qaLoop env maxAttempts maxAttempts 1 ⟨toolHtml0, 0, [], 0⟩ with
          | .passed st q =>
            { success := true, toolHtml := some st.toolHtml,
              toolName := some spec.metadata.name,
              toolSlug := some spec.metadata.slug,
              toolDescription := some spec.metadata.tagline,
              category := some spec.metadata.category,
              qaReport := some q,
              revisionCount := st.revisionCount,
              revisionHistory := st.revisionHistory,
              spec := some spec }
          | .exhausted st q =>
            { success := false, toolHtml := some st.toolHtml,
              toolName := some spec.metadata.name,
              toolSlug := some spec.metadata.slug,
              toolDescription := some spec.metadata.tagline,
              category := some spec.metadata.category,
              qaReport := some q,
              revisionCount := st.revisionCount,
              revisionHistory := st.revisionHistory,
              spec := some spec,
              error := some ("Tool failed QA after " ++ toString maxAttempts
                ++ " attempts. Final score: " ++ toString q.score ++ "/100") }
          | .errored st e => pipelineCatch st.revisionCount st.revisionHistory e

/-- The named SSE events emitted by `routes/generate.ts`
(`connected`, `progress`, `complete`, `failed`, `error`). -/
inductive SSEEvent
  | connected
  | progressEv
  | complete
  | failed
  | errorEv
deriving DecidableEq

/-- What one connection to `GET /api/jobs/:id/generate/stream` does:
the ordered events written before the stream is closed, whether the handler
runs `generateTool` for this connection, and whether it attempts the
`DRAFT -> SENT` transition. -/
structure StreamOutcome where
  events : List SSEEvent
  startsRun : Bool
  attemptsStartTransition : Bool
deriving DecidableEq

/-- The SSE handler of `GET /api/jobs/:id/generate/stream` in
`routes/generate.ts`, for an existing job, as a function of the job status
at connection time. `progressCount` is the number of progress callbacks the
pipeline fires; `runResult` is what `await generateTool(job, onProgress)`
does: `.ok b` for a normal return with success flag `b`, `.error msg` for a
thrown exception (handled by the catch that emits the `error` event).
Terminal statuses short-circuit: a single synthetic `complete` or `failed`
event, then `res.end()`. Every other status falls through to
`generateTool`, with the `DRAFT -> SENT` transition attempted only when the
status is `DRAFT`. -/
def streamSession (status : JobStatus) (progressCount : Nat)
    (runResult : Except String Bool) : StreamOutcome :=
  if status = .READY_FOR_REVIEW then ⟨[.complete], false, false⟩
  else if status = .FACTORY_FAILED then ⟨[.failed], false, false⟩
  else
    let terminal : SSEEvent :=
      match runResult with
      | .ok true => .complete
      | .ok false => .failed
      | .error _ => .errorEv
    ⟨.connected :: (List.replicate progressCount .progressEv ++ [terminal]),
     true, decide (status = .DRAFT)⟩

/-- The HTTP response of `POST /api/jobs/:id/generate`. -/
inductive PostResponse
  | notFound
  | conflict (current : JobStatus)
  | notReady (missing : List String)
  | serverError
  | accepted
deriving DecidableEq

/-- What one call to `POST /api/jobs/:id/generate` does: the response, the
status written back to the job store (if any), and whether
`generateToolAsync` is started. -/
structure PostOutcome where
  response : PostResponse
  savedStatus : Option JobStatus
  startsRun : Bool
deriving DecidableEq

/-- The handler of `POST /api/jobs/:id/generate` in `routes/generate.ts`:
404 when the job does not exist; 409 conflict carrying the current status
when the job is not `DRAFT` (before any transition or run); 503 when the AI
providers are not configured; then the `DRAFT -> SENT` system transition,
500 if it fails, otherwise 202 and the asynchronous run. -/
def postGenerate (job : Option Job) (ready : Bool) (missing : List String) :
    PostOutcome :=
  match job with
  | none => ⟨.notFound, none, false⟩
  | some j =>
    if j.status ≠ .DRAFT then ⟨.conflict j.status, none, false⟩
    else if ready = false then ⟨.notReady missing, none, false⟩
    else
      match transitionJob j .SENT .SYSTEM with
      | .error _ => ⟨.serverError, none, false⟩
      | .ok j2 => ⟨.accepted, some j2.status, true⟩

/-- JavaScript whitespace trimmed by `String.prototype.trim` (the characters
occurring in the payloads modelled here). -/
def isJsWhitespace (c : Char) : Bool :=
  decide (c = ' ' ∨ c = '\n' ∨ c = '\t' ∨ c = '\r')

/-- `trim()` on a character list: strip leading and trailing whitespace. -/
def jsTrim (s : List Char) : List Char :=
  ((s.dropWhile isJsWhitespace).reverse.dropWhile isJsWhitespace).reverse

/-- Whether `pre` is a prefix of `s` (`String.prototype.startsWith`). -/
def startsWithL (pre s : List Char) : Bool :=
  match pre, s with
  | [], _ => true
  | _ :: _, [] => false
  | p :: ps, c :: cs => p == c && startsWithL ps cs

/-- Whether `needle` occurs in `s` (`String.prototype.includes`). -/
def containsL (needle : List Char) : List Char → Bool
  | [] => startsWithL needle []
  | c :: cs => startsWithL needle (c :: cs) || containsL needle cs

/-- Whether `suf` is a suffix of `s` (the anchored regex match). -/
def endsWithL (suf s : List Char) : Bool :=
  startsWithL suf.reverse s.reverse

/-- The global replace of the code-fence opener in `runTemplateDecider`
(`templateDecider.ts`): the pattern is three backticks, then `htm`, then an
optional `l`, then an optional newline (the regex makes only the final `l`
and the newline optional), replaced by nothing; scanning resumes after each
match, and a position that does not match is kept and scanning advances one
character. `fuel` bounds the recursion and is instantiated with the length
of the scanned list, which the scan never exceeds. -/
def stripHtmlFences (fuel : Nat) (s : List Char) : List Char :=
  match fuel, s with
  | 0, rest => rest
  | _ + 1, [] => []
  | fuel + 1, c :: cs =>
    if startsWithL "```html\n".data (c :: cs) then
      stripHtmlFences fuel ((c :: cs).drop 8)
    else if startsWithL "```html".data (c :: cs) then
      stripHtmlFences fuel ((c :: cs).drop 7)
    else if startsWithL "```htm\n".data (c :: cs) then
      stripHtmlFences fuel ((c :: cs).drop 7)
    else if startsWithL "```htm".data (c :: cs) then
      stripHtmlFences fuel ((c :: cs).drop 6)
    else c :: stripHtmlFences fuel cs

/-- The end-anchored replace in `runTemplateDecider`: remove one trailing
three-backtick fence if present. -/
def stripTrailingFence (s : List Char) : List Char :=
  if endsWithL "```".data s then s.take (s.length - 3) else s

/-- The output normalization and validation of `runTemplateDecider`
(`templateDecider.ts`): trim the raw model response; when it starts with a
code fence, strip the fence markers and trim again; then reject the payload
unless it starts with the HTML envelope marker and contains a closing
`html` tag. -/
def cleanTemplateOutput (raw : List Char) : Except String (List Char) :=
  let html0 := jsTrim raw
  let html :=
    if startsWithL "```".data html0 then
      jsTrim (stripTrailingFence (stripHtmlFences html0.length html0))
    else html0
  if !(startsWithL "<!DOCTYPE html>".data html || startsWithL "<html".data html) then
    .error "Template Decider did not return valid HTML"
  else if !(containsL "</html>".data html) then
    .error "Template Decider returned incomplete HTML"
  else .ok html

/-- `runTemplateDecider` after the model call, on strings. -/
def runTemplateDeciderClean (raw : String) : Except String String :=
  (cleanTemplateOutput raw.data).map fun l => String.mk l

/-! ### Helper lemmas about one iteration of the QA/feedback loop -/

theorem qaLoop_qa_error (env : PipelineEnv) (maxAttempts r a : Nat)
    (st : LoopState) (e : String)
    (hq : env.qa a st.toolHtml = .error e) :
    qaLoop env maxAttempts (r + 1) a st
      = .errored { st with revisionCount := a } e := by
  simp [qaLoop, hq]

theorem qaLoop_pass (env : PipelineEnv) (maxAttempts r a : Nat)
    (st : LoopState) (q : QAResult)
    (hq : env.qa a st.toolHtml = .ok q)
    (hp : meetsPassThreshold q = true) :
    qaLoop env maxAttempts (r + 1) a st
      = .passed { st with
          revisionCount := a,
          revisionHistory := st.revisionHistory ++ [mkRevisionEntry a q] } q := by
  simp [qaLoop, hq, hp]

theorem qaLoop_fail_exhausted (env : PipelineEnv) (maxAttempts r a : Nat)
    (st : LoopState) (q : QAResult)
    (hq : env.qa a st.toolHtml = .ok q)
    (hp : meetsPassThreshold q = false)
    (hlast : ¬ a < maxAttempts) :
    qaLoop env maxAttempts (r + 1) a st
      = .exhausted { st with
          revisionCount := a,
          revisionHistory := st.revisionHistory ++ [mkRevisionEntry a q] } q := by
  simp [qaLoop, hq, hp, hlast]

theorem qaLoop_fail_feedback_error (env : PipelineEnv) (maxAttempts r a : Nat)
    (st : LoopState) (q : QAResult) (e : String)
    (hq : env.qa a st.toolHtml = .ok q)
    (hp : meetsPassThreshold q = false)
    (hlt : a < maxAttempts)
    (hf : env.feedback a st.toolHtml q = .error e) :
    qaLoop env maxAttempts (r + 1) a st
      = .errored { st with
          revisionCount := a,
          revisionHistory := st.revisionHistory ++ [mkRevisionEntry a q] } e := by
  simp [qaLoop, hq, hp, hlt, hf]

theorem qaLoop_fail_continue (env : PipelineEnv) (maxAttempts r a : Nat)
    (st : LoopState) (q : QAResult) (newHtml : String)
    (hq : env.qa a st.toolHtml = .ok q)
    (hp : meetsPassThreshold q = false)
    (hlt : a < maxAttempts)
    (hf : env.feedback a st.toolHtml q = .ok newHtml) :
    qaLoop env maxAttempts (r + 1) a st
      = qaLoop env maxAttempts r (a + 1)
          ⟨newHtml, a, st.revisionHistory ++ [mkRevisionEntry a q],
           st.feedbackCalls + 1⟩ := by
  simp [qaLoop, hq, hp, hlt, hf]

/-! ### Helper lemmas about how `runToolPipeline` consumes the loop outcome -/

theorem runToolPipeline_errored (env : PipelineEnv) (maxAttempts : Nat)
    (sec : SecretaryOutput) (spec : ToolSpec) (h0 : String)
    (st : LoopState) (e : String)
    (hc : env.configValid = true) (hs : env.secretary = .ok sec)
    (hb : env.builder = .ok spec) (ht : env.template = .ok h0)
    (hl : qaLoop env maxAttempts maxAttempts 1 ⟨h0, 0, [], 0⟩ = .errored st e) :
    runToolPipeline env maxAttempts
      = pipelineCatch st.revisionCount st.revisionHistory e := by
  simp [runToolPipeline, hc, hs, hb, ht, hl]

theorem runToolPipeline_exhausted (env : PipelineEnv) (maxAttempts : Nat)
    (sec : SecretaryOutput) (spec : ToolSpec) (h0 : String)
    (st : LoopState) (q : QAResult)
    (hc : env.configValid = true) (hs : env.secretary = .ok sec)
    (hb : env.builder = .ok spec) (ht : env.template = .ok h0)
    (hl : qaLoop env maxAttempts maxAttempts 1 ⟨h0, 0, [], 0⟩ = .exhausted st q) :
    runToolPipeline env maxAttempts
      = { success := false, toolHtml := some st.toolHtml,
          toolName := some spec.metadata.name,
          toolSlug := some spec.metadata.slug,
          toolDescription := some spec.metadata.tagline,
          category := some spec.metadata.category,
          qaReport := some q,
          revisionCount := st.revisionCount,
          revisionHistory := st.revisionHistory,
          spec := some spec,
          error := some ("Tool failed QA after " ++ toString maxAttempts
            ++ " attempts. Final score: " ++ toString q.score ++ "/100") } := by
  simp [runToolPipeline, hc, hs, hb, ht, hl]

/-! ### Helper lemmas for the quality-gate pass criterion -/

theorem not_decide_le (x y : Int) : (!decide (y ≤ x)) = decide (x < y) := by
  by_cases h : y ≤ x
  · simp [h, show ¬(x < y) by omega]
  · simp [h, show x < y by omega]

theorem anyBelow_eq_not_allAtLeast (l : List Int) :
    (l.any fun s => decide (s < 60)) = !(l.all fun s => decide (60 ≤ s)) := by
  induction l with
  | nil => rfl
  | cons x xs ih => simp [List.any_cons, List.all_cons, Bool.not_and, ih, not_decide_le]

/-! ### Claim theorems -/

/-- C3: a (from, to, actor) triple is accepted exactly when it is a row of
the section 4.2 transition table, and every other triple is rejected with a
`TransitionError` carrying from, to and actor, leaving the job record
completely unchanged: the transition check is a pure validation with no
partial effects. -/
theorem illegal_transition_rejected_without_effect :
    (∀ (f t : JobStatus) (a : ActorType),
      allowedTransition f t a = true ↔ (f, t, a) ∈ transitionTable)
    ∧ (∀ (j : Job) (t : JobStatus) (a : ActorType),
        allowedTransition j.status t a = false →
        applyTransition j t a = (j, some ⟨j.status, t, a⟩)) := by
  constructor
  · intro f t a
    cases f <;> cases t <;> cases a <;> decide
  · intro j t a h
    simp [applyTransition, transitionJob, h]

/-- C3 witness: the triple (DRAFT, APPROVED, BOSS) is not in the table and
is rejected with the corresponding `TransitionError`, the job unchanged. -/
theorem illegal_transition_rejected_without_effect_witness :
    applyTransition ⟨"job-1", .DRAFT, none, none, 0⟩ .APPROVED .BOSS
      = (⟨"job-1", .DRAFT, none, none, 0⟩,
         some ⟨.DRAFT, .APPROVED, .BOSS⟩) :=
  illegal_transition_rejected_without_effect.2
    ⟨"job-1", .DRAFT, none, none, 0⟩ .APPROVED .BOSS (by decide)

/-- C5: the quality gate is conjunctive: a QA result passes exactly when the
overall score is at least 85 and every sub-criterion score is at least 60;
in particular a result with overall score 90 but one sub-criterion at 55
fails. -/
theorem pass_threshold_conjunctive :
    (∀ r : QAResult,
      meetsPassThreshold r
        = (decide (85 ≤ r.score)
            && r.criteria_scores.values.all fun s => decide (60 ≤ s)))
    ∧ meetsPassThreshold
        { result := "PASS", score := 90,
          criteria_scores := ⟨90, 90, 90, 90, 90, 90, 55, 90⟩ } = false := by
  constructor
  · intro r
    by_cases hs : r.score < 85
    · simp [meetsPassThreshold, hs, show ¬(85 ≤ r.score) by omega]
    · have h85 : (85 : Int) ≤ r.score := by omega
      simp only [meetsPassThreshold, if_neg hs, h85, decide_eq_true_eq,
        anyBelow_eq_not_allAtLeast, decide_True, Bool.true_and]
      cases h : (r.criteria_scores.values.all fun s => decide (60 ≤ s)) <;> simp [h]
  · decide

/-- C10: the gate decision depends only on the `score` and
`criteria_scores` fields of the QA result, so the QA model's own PASS label
is ignored; a result labelled PASS with score 80 still fails the gate. -/
theorem gate_depends_only_on_scores :
    (∀ r1 r2 : QAResult, r1.score = r2.score →
      r1.criteria_scores = r2.criteria_scores →
      meetsPassThreshold r1 = meetsPassThreshold r2)
    ∧ meetsPassThreshold
        { result := "PASS", score := 80,
          criteria_scores := ⟨90, 90, 90, 90, 90, 90, 90, 90⟩ } = false := by
  constructor
  · intro r1 r2 h1 h2
    simp [meetsPassThreshold, h1, h2]
  · decide

/-- C10 witness: two QA results that agree on `score` and
`criteria_scores` but differ in the `result` label and the issue lists get
the same gate decision. -/
theorem gate_depends_only_on_scores_witness :
    meetsPassThreshold
      { result := "PASS", score := 97,
        criteria_scores := ⟨97, 97, 97, 97, 97, 97, 97, 97⟩ }
    = meetsPassThreshold
      { result := "FAIL", score := 97,
        criteria_scores := ⟨97, 97, 97, 97, 97, 97, 97, 97⟩,
        issues := ["style"] } :=
  gate_depends_only_on_scores.1
    { result := "PASS", score := 97,
      criteria_scores := ⟨97, 97, 97, 97, 97, 97, 97, 97⟩ }
    { result := "FAIL", score := 97,
      criteria_scores := ⟨97, 97, 97, 97, 97, 97, 97, 97⟩,
      issues := ["style"] }
    rfl rfl

/-- C6: a subscriber connecting while the job is already terminal receives
exactly one synthetic terminal event (`complete` for READY_FOR_REVIEW,
`failed` for FACTORY_FAILED), the stream closes immediately (no `connected`
or `progress` events), no pipeline run is started, and no transition is
attempted — whatever the pipeline oracle would have done. -/
theorem late_subscriber_single_terminal_event :
    ∀ (n : Nat) (r : Except String Bool),
      streamSession .READY_FOR_REVIEW n r = ⟨[.complete], false, false⟩
      ∧ streamSession .FACTORY_FAILED n r = ⟨[.failed], false, false⟩ := by
  intro n r
  exact ⟨rfl, rfl⟩

/-- C1 counterexample: the stream handler starts a pipeline run for a DRAFT
job, but it also starts one when the job is already `SENT`, i.e. while a
run is already in flight — so a second subscribe after a first one (which
moved the job to `SENT`), or any subscribe during an active run, starts a
second concurrent pipeline run. -/
theorem stream_subscribe_inflight_counterexample :
    (streamSession .DRAFT 0 (.ok true)).startsRun = true
    ∧ (streamSession .SENT 0 (.ok true)).startsRun = true := by
  exact ⟨rfl, rfl⟩

/-- C1 amended: the stream handler runs `generateTool` for every job whose
status is not terminal (`READY_FOR_REVIEW` or `FACTORY_FAILED`); it does
not check whether a run is already in flight, so per-job exclusivity is not
enforced by this endpoint. -/
theorem stream_subscribe_starts_run_iff_nonterminal :
    ∀ (status : JobStatus) (n : Nat) (r : Except String Bool),
      (streamSession status n r).startsRun = true
        ↔ (status ≠ .READY_FOR_REVIEW ∧ status ≠ .FACTORY_FAILED) := by
  intro status n r
  cases status <;> simp [streamSession]

/-- C7: starting generation on a job whose status is not DRAFT is rejected
with a conflict response carrying the current status; no transition is
applied, nothing is saved, and no pipeline run is started. -/
theorem start_generation_conflict_on_non_draft :
    ∀ (j : Job) (ready : Bool) (missing : List String),
      j.status ≠ .DRAFT →
      postGenerate (some j) ready missing = ⟨.conflict j.status, none, false⟩ := by
  intro j ready missing h
  simp [postGenerate, h]

/-- C7 witness: a job already `SENT` (processing) gets the conflict
response naming `SENT`, with no saved status and no run. -/
theorem start_generation_conflict_on_non_draft_witness :
    postGenerate (some ⟨"job-1", .SENT, none, none, 0⟩) true []
      = ⟨.conflict .SENT, none, false⟩ :=
  start_generation_conflict_on_non_draft
    ⟨"job-1", .SENT, none, none, 0⟩ true [] (by decide)

/-- C2 counterexample: with `maxAttempts = 3` and two retry slots
remaining, a stage error in the quality-gate loop ends the run immediately
instead of being absorbed as a failed attempt: a Validate (QA) stage that
throws on the very first attempt yields the thrown message as the final
error with no failed-attempt entry recorded (`revisionHistory = []`) and no
second attempt; and a Revise (feedback) stage that throws after a
gate-failing first attempt likewise ends the run at `revisionCount = 1`
with no retry. -/
theorem validate_error_absorbed_counterexample :
    runToolPipeline
      { configValid := true,
        secretary := .ok ⟨"Hiring Tool", "b2b_service"⟩,
        builder := .ok ⟨⟨"Hiring Tool", "hiring-tool", "b2b_service", "Decide now", ""⟩⟩,
        template := .ok "<html>a</html>",
        qa := fun _ _ => .error "upstream unavailable",
        feedback := fun _ h _ => .ok h } 3
      = { success := false, revisionCount := 1, revisionHistory := [],
          error := some "upstream unavailable" }
    ∧ runToolPipeline
      { configValid := true,
        secretary := .ok ⟨"Hiring Tool", "b2b_service"⟩,
        builder := .ok ⟨⟨"Hiring Tool", "hiring-tool", "b2b_service", "Decide now", ""⟩⟩,
        template := .ok "<html>a</html>",
        qa := fun _ _ =>
          .ok { result := "FAIL", score := 50,
                criteria_scores := ⟨50, 50, 50, 50, 50, 50, 50, 50⟩,
                issues := ["vague verdict"] },
        feedback := fun _ _ _ => .error "revise upstream unavailable" } 3
      = { success := false, revisionCount := 1,
          revisionHistory :=
            [mkRevisionEntry 1
              { result := "FAIL", score := 50,
                criteria_scores := ⟨50, 50, 50, 50, 50, 50, 50, 50⟩,
                issues := ["vague verdict"] }],
          error := some "revise upstream unavailable" } := by
  exact ⟨rfl, rfl⟩

/-- C2 amended: a stage error raised during the Validate or the Revise
stage of the quality-gate loop escapes to the pipeline's outer catch-all
and immediately ends the whole run, regardless of how many attempts remain:
the error becomes the final error and no further Validate or Revise calls
happen. A Validate error leaves no history entry for the erroring attempt;
a Revise error keeps the already-recorded entry of its attempt. The failure
result carries the revision count and history accumulated before the error.
(Shown after a gate-failing attempt 1 with attempts remaining, for an error
in Validate on attempt 2 and for an error in Revise on attempt 1.) -/
theorem validate_or_revise_error_aborts_run :
    ∀ (env : PipelineEnv) (maxAttempts : Nat) (sec : SecretaryOutput)
      (spec : ToolSpec) (h0 h1 : String) (q1 : QAResult) (e : String),
      env.configValid = true → env.secretary = .ok sec →
      env.builder = .ok spec → env.template = .ok h0 →
      env.qa 1 h0 = .ok q1 → meetsPassThreshold q1 = false →
      1 < maxAttempts →
      ((env.feedback 1 h0 q1 = .ok h1 → env.qa 2 h1 = .error e →
          runToolPipeline env maxAttempts
            = pipelineCatch 2 [mkRevisionEntry 1 q1] e)
       ∧ (env.feedback 1 h0 q1 = .error e →
          runToolPipeline env maxAttempts
            = pipelineCatch 1 [mkRevisionEntry 1 q1] e)) := by
  intro env maxAttempts sec spec h0 h1 q1 e hc hs hb ht hq1 hp hm
  obtain ⟨m, rfl⟩ : ∃ m, maxAttempts = m + 2 := ⟨maxAttempts - 2, by omega⟩
  constructor
  · intro hf hq2
    have hl : qaLoop env (m + 2) (m + 2) 1 ⟨h0, 0, [], 0⟩
        = .errored ⟨h1, 2, [mkRevisionEntry 1 q1], 1⟩ e := by
      have s1 := qaLoop_fail_continue env (m + 2) (m + 1) 1 ⟨h0, 0, [], 0⟩ q1
        h1 hq1 hp (by omega) hf
      have s2 := qaLoop_qa_error env (m + 2) m 2
        ⟨h1, 1, [mkRevisionEntry 1 q1], 1⟩ e hq2
      exact s1.trans s2
    exact runToolPipeline_errored env (m + 2) sec spec h0 _ e hc hs hb ht hl
  · intro hf
    have hl : qaLoop env (m + 2) (m + 2) 1 ⟨h0, 0, [], 0⟩
        = .errored ⟨h0, 1, [mkRevisionEntry 1 q1], 0⟩ e :=
      qaLoop_fail_feedback_error env (m + 2) (m + 1) 1 ⟨h0, 0, [], 0⟩ q1 e
        hq1 hp (by omega) hf
    exact runToolPipeline_errored env (m + 2) sec spec h0 _ e hc hs hb ht hl

/-- C2 amended witness: two concrete runs with a gate-failing attempt 1 and
`maxAttempts = 3`: in the first, Validate throws on attempt 2 and the run
aborts with the exception message and only the attempt-1 history entry; in
the second, Revise throws on attempt 1 and the run aborts at
`revisionCount = 1` keeping the attempt-1 entry. -/
theorem validate_or_revise_error_aborts_run_witness :
    runToolPipeline
      { configValid := true,
        secretary := .ok ⟨"Hiring Tool", "b2b_service"⟩,
        builder := .ok ⟨⟨"Hiring Tool", "hiring-tool", "b2b_service", "Decide now", ""⟩⟩,
        template := .ok "h0",
        qa := fun a _ =>
          if a = 1 then
            .ok { result := "FAIL", score := 50,
                  criteria_scores := ⟨50, 50, 50, 50, 50, 50, 50, 50⟩,
                  issues := ["vague verdict"] }
          else .error "boom",
        feedback := fun _ _ _ => .ok "h1" } 3
      = pipelineCatch 2
          [mkRevisionEntry 1
            { result := "FAIL", score := 50,
              criteria_scores := ⟨50, 50, 50, 50, 50, 50, 50, 50⟩,
              issues := ["vague verdict"] }] "boom"
    ∧ runToolPipeline
      { configValid := true,
        secretary := .ok ⟨"Hiring Tool", "b2b_service"⟩,
        builder := .ok ⟨⟨"Hiring Tool", "hiring-tool", "b2b_service", "Decide now", ""⟩⟩,
        template := .ok "h0",
        qa := fun _ _ =>
          .ok { result := "FAIL", score := 50,
                criteria_scores := ⟨50, 50, 50, 50, 50, 50, 50, 50⟩,
                issues := ["vague verdict"] },
        feedback := fun _ _ _ => .error "revise down" } 3
      = pipelineCatch 1
          [mkRevisionEntry 1
            { result := "FAIL", score := 50,
              criteria_scores := ⟨50, 50, 50, 50, 50, 50, 50, 50⟩,
              issues := ["vague verdict"] }] "revise down" :=
  ⟨(validate_or_revise_error_aborts_run
      { configValid := true,
        secretary := .ok ⟨"Hiring Tool", "b2b_service"⟩,
        builder := .ok ⟨⟨"Hiring Tool", "hiring-tool", "b2b_service", "Decide now", ""⟩⟩,
        template := .ok "h0",
        qa := fun a _ =>
          if a = 1 then
            .ok { result := "FAIL", score := 50,
                  criteria_scores := ⟨50, 50, 50, 50, 50, 50, 50, 50⟩,
                  issues := ["vague verdict"] }
          else .error "boom",
        feedback := fun _ _ _ => .ok "h1" } 3
      ⟨"Hiring Tool", "b2b_service"⟩
      ⟨⟨"Hiring Tool", "hiring-tool", "b2b_service", "Decide now", ""⟩⟩
      "h0" "h1"
      { result := "FAIL", score := 50,
        criteria_scores := ⟨50, 50, 50, 50, 50, 50, 50, 50⟩,
        issues := ["vague verdict"] }
      "boom" rfl rfl rfl rfl rfl rfl (by omega)).1 rfl rfl,
   (validate_or_revise_error_aborts_run
      { configValid := true,
        secretary := .ok ⟨"Hiring Tool", "b2b_service"⟩,
        builder := .ok ⟨⟨"Hiring Tool", "hiring-tool", "b2b_service", "Decide now", ""⟩⟩,
        template := .ok "h0",
        qa := fun _ _ =>
          .ok { result := "FAIL", score := 50,
                criteria_scores := ⟨50, 50, 50, 50, 50, 50, 50, 50⟩,
                issues := ["vague verdict"] },
        feedback := fun _ _ _ => .error "revise down" } 3
      ⟨"Hiring Tool", "b2b_service"⟩
      ⟨⟨"Hiring Tool", "hiring-tool", "b2b_service", "Decide now", ""⟩⟩
      "h0" "unused"
      { result := "FAIL", score := 50,
        criteria_scores := ⟨50, 50, 50, 50, 50, 50, 50, 50⟩,
        issues := ["vague verdict"] }
      "revise down" rfl rfl rfl rfl rfl rfl (by omega)).2 rfl⟩

/-- C4: with `maxAttempts = 3` and a Validate (QA) stage that fails the
gate on every attempt (while returning normally), the loop records exactly
three attempt entries and performs exactly two Revise (feedback-applier)
calls — none after the final failed attempt — and the pipeline returns a
failed result that still carries the last artifact produced (the HTML from
the second revision). -/
theorem qa_always_fails_three_attempts_two_revisions :
    ∀ (env : PipelineEnv) (sec : SecretaryOutput) (spec : ToolSpec)
      (h0 h1 h2 : String) (q1 q2 q3 : QAResult),
      env.configValid = true → env.secretary = .ok sec →
      env.builder = .ok spec → env.template = .ok h0 →
      env.qa 1 h0 = .ok q1 → meetsPassThreshold q1 = false →
      env.feedback 1 h0 q1 = .ok h1 →
      env.qa 2 h1 = .ok q2 → meetsPassThreshold q2 = false →
      env.feedback 2 h1 q2 = .ok h2 →
      env.qa 3 h2 = .ok q3 → meetsPassThreshold q3 = false →
      qaLoop env 3 3 1 ⟨h0, 0, [], 0⟩
        = .exhausted ⟨h2, 3,
            [mkRevisionEntry 1 q1, mkRevisionEntry 2 q2, mkRevisionEntry 3 q3],
            2⟩ q3
      ∧ runToolPipeline env 3
        = { success := false, toolHtml := some h2,
            toolName := some spec.metadata.name,
            toolSlug := some spec.metadata.slug,
            toolDescription := some spec.metadata.tagline,
            category := some spec.metadata.category,
            qaReport := some q3,
            revisionCount := 3,
            revisionHistory :=
              [mkRevisionEntry 1 q1, mkRevisionEntry 2 q2, mkRevisionEntry 3 q3],
            spec := some spec,
            error := some ("Tool failed QA after " ++ toString (3 : Nat)
              ++ " attempts. Final score: " ++ toString q3.score ++ "/100") } := by
  intro env sec spec h0 h1 h2 q1 q2 q3 hc hs hb ht hq1 hp1 hf1 hq2 hp2 hf2 hq3 hp3
  have hl : qaLoop env 3 3 1 ⟨h0, 0, [], 0⟩
      = .exhausted ⟨h2, 3,
          [mkRevisionEntry 1 q1, mkRevisionEntry 2 q2, mkRevisionEntry 3 q3],
          2⟩ q3 := by
    have s1 := qaLoop_fail_continue env 3 2 1 ⟨h0, 0, [], 0⟩ q1 h1
      hq1 hp1 (by omega) hf1
    have s2 := qaLoop_fail_continue env 3 1 2
      ⟨h1, 1, [mkRevisionEntry 1 q1], 1⟩ q2 h2 hq2 hp2 (by omega) hf2
    have s3 := qaLoop_fail_exhausted env 3 0 3
      ⟨h2, 2, [mkRevisionEntry 1 q1, mkRevisionEntry 2 q2], 2⟩ q3
      hq3 hp3 (by omega)
    exact (s1.trans s2).trans s3
  exact ⟨hl, runToolPipeline_exhausted env 3 sec spec h0 _ q3 hc hs hb ht hl⟩

/-- C4 witness: a concrete always-failing QA oracle: three recorded
attempts, two feedback calls, failure retaining the last artifact `h2`. -/
theorem qa_always_fails_three_attempts_two_revisions_witness :
    qaLoop
      { configValid := true,
        secretary := .ok ⟨"Hiring Tool", "b2b_service"⟩,
        builder := .ok ⟨⟨"Hiring Tool", "hiring-tool", "b2b_service", "Decide now", ""⟩⟩,
        template := .ok "h0",
        qa := fun _ _ =>
          .ok { result := "FAIL", score := 50,
                criteria_scores := ⟨50, 50, 50, 50, 50, 50, 50, 50⟩,
                issues := ["vague verdict"] },
        feedback := fun a _ _ => .ok ("h" ++ toString a) } 3 3 1 ⟨"h0", 0, [], 0⟩
      = .exhausted ⟨"h2", 3,
          [mkRevisionEntry 1
            { result := "FAIL", score := 50,
              criteria_scores := ⟨50, 50, 50, 50, 50, 50, 50, 50⟩,
              issues := ["vague verdict"] },
           mkRevisionEntry 2
            { result := "FAIL", score := 50,
              criteria_scores := ⟨50, 50, 50, 50, 50, 50, 50, 50⟩,
              issues := ["vague verdict"] },
           mkRevisionEntry 3
            { result := "FAIL", score := 50,
              criteria_scores := ⟨50, 50, 50, 50, 50, 50, 50, 50⟩,
              issues := ["vague verdict"] }], 2⟩
          { result := "FAIL", score := 50,
            criteria_scores := ⟨50, 50, 50, 50, 50, 50, 50, 50⟩,
            issues := ["vague verdict"] }
    ∧ runToolPipeline
      { configValid := true,
        secretary := .ok ⟨"Hiring Tool", "b2b_service"⟩,
        builder := .ok ⟨⟨"Hiring Tool", "hiring-tool", "b2b_service", "Decide now", ""⟩⟩,
        template := .ok "h0",
        qa := fun _ _ =>
          .ok { result := "FAIL", score := 50,
                criteria_scores := ⟨50, 50, 50, 50, 50, 50, 50, 50⟩,
                issues := ["vague verdict"] },
        feedback := fun a _ _ => .ok ("h" ++ toString a) } 3
      = { success := false, toolHtml := some "h2",
          toolName := some "Hiring Tool",
          toolSlug := some "hiring-tool",
          toolDescription := some "Decide now",
          category := some "b2b_service",
          qaReport := some
            { result := "FAIL", score := 50,
              criteria_scores := ⟨50, 50, 50, 50, 50, 50, 50, 50⟩,
              issues := ["vague verdict"] },
          revisionCount := 3,
          revisionHistory :=
            [mkRevisionEntry 1
              { result := "FAIL", score := 50,
                criteria_scores := ⟨50, 50, 50, 50, 50, 50, 50, 50⟩,
                issues := ["vague verdict"] },
             mkRevisionEntry 2
              { result := "FAIL", score := 50,
                criteria_scores := ⟨50, 50, 50, 50, 50, 50, 50, 50⟩,
                issues := ["vague verdict"] },
             mkRevisionEntry 3
              { result := "FAIL", score := 50,
                criteria_scores := ⟨50, 50, 50, 50, 50, 50, 50, 50⟩,
                issues := ["vague verdict"] }],
          spec := some ⟨⟨"Hiring Tool", "hiring-tool", "b2b_service", "Decide now", ""⟩⟩,
          error := some "Tool failed QA after 3 attempts. Final score: 50/100" } :=
  qa_always_fails_three_attempts_two_revisions
    { configValid := true,
      secretary := .ok ⟨"Hiring Tool", "b2b_service"⟩,
      builder := .ok ⟨⟨"Hiring Tool", "hiring-tool", "b2b_service", "Decide now", ""⟩⟩,
      template := .ok "h0",
      qa := fun _ _ =>
        .ok { result := "FAIL", score := 50,
              criteria_scores := ⟨50, 50, 50, 50, 50, 50, 50, 50⟩,
              issues := ["vague verdict"] },
      feedback := fun a _ _ => .ok ("h" ++ toString a) }
    ⟨"Hiring Tool", "b2b_service"⟩
    ⟨⟨"Hiring Tool", "hiring-tool", "b2b_service", "Decide now", ""⟩⟩
    "h0" "h1" "h2"
    { result := "FAIL", score := 50,
      criteria_scores := ⟨50, 50, 50, 50, 50, 50, 50, 50⟩,
      issues := ["vague verdict"] }
    { result := "FAIL", score := 50,
      criteria_scores := ⟨50, 50, 50, 50, 50, 50, 50, 50⟩,
      issues := ["vague verdict"] }
    { result := "FAIL", score := 50,
      criteria_scores := ⟨50, 50, 50, 50, 50, 50, 50, 50⟩,
      issues := ["vague verdict"] }
    rfl rfl rfl rfl rfl rfl rfl rfl rfl rfl rfl rfl

/-- C9: `runToolPipeline` never propagates a stage exception: whenever the
result is a failure it carries an error message, and an error raised by any
stage (configuration aside: Secretary, Builder, Template Decider, or the
QA/feedback loop) produces exactly the catch-block result — success
`false`, the exception message in `error`, and the `revisionCount` and
`revisionHistory` accumulated so far. -/
theorem pipeline_returns_structured_failure :
    ∀ (env : PipelineEnv) (maxAttempts : Nat),
      ((runToolPipeline env maxAttempts).success = false →
        (runToolPipeline env maxAttempts).error ≠ none)
      ∧ (∀ e : String, env.configValid = true → env.secretary = .error e →
          runToolPipeline env maxAttempts = pipelineCatch 0 [] e)
      ∧ (∀ (sec : SecretaryOutput) (e : String), env.configValid = true →
          env.secretary = .ok sec → env.builder = .error e →
          runToolPipeline env maxAttempts = pipelineCatch 0 [] e)
      ∧ (∀ (sec : SecretaryOutput) (spec : ToolSpec) (e : String),
          env.configValid = true → env.secretary = .ok sec →
          env.builder = .ok spec → env.template = .error e →
          runToolPipeline env maxAttempts = pipelineCatch 0 [] e)
      ∧ (∀ (sec : SecretaryOutput) (spec : ToolSpec) (h0 : String)
          (st : LoopState) (e : String),
          env.configValid = true → env.secretary = .ok sec →
          env.builder = .ok spec → env.template = .ok h0 →
          qaLoop env maxAttempts maxAttempts 1 ⟨h0, 0, [], 0⟩ = .errored st e →
          runToolPipeline env maxAttempts
            = pipelineCatch st.revisionCount st.revisionHistory e) := by
  intro env maxAttempts
  refine ⟨?_, ?_, ?_, ?_, ?_⟩
  · intro hfail
    cases hval : env.configValid
    · simp [runToolPipeline, hval, pipelineCatch]
    · rcases hs : env.secretary with e | sec
      · simp [runToolPipeline, hval, hs, pipelineCatch]
      · rcases hb : env.builder with e | spec
        · simp [runToolPipeline, hval, hs, hb, pipelineCatch]
        · rcases ht : env.template with e | h0
          · simp [runToolPipeline, hval, hs, hb, ht, pipelineCatch]
          · rcases hl : qaLoop env maxAttempts maxAttempts 1 ⟨h0, 0, [], 0⟩ with
              ⟨st, q⟩ | ⟨st, q⟩ | ⟨st, e⟩
            · simp [runToolPipeline, hval, hs, hb, ht, hl] at hfail
            · simp [runToolPipeline, hval, hs, hb, ht, hl]
            · simp [runToolPipeline, hval, hs, hb, ht, hl, pipelineCatch]
  · intro e hc hs
    simp [runToolPipeline, hc, hs]
  · intro sec e hc hs hb
    simp [runToolPipeline, hc, hs, hb]
  · intro sec spec e hc hs hb ht
    simp [runToolPipeline, hc, hs, hb, ht]
  · intro sec spec h0 st e hc hs hb ht hl
    simp [runToolPipeline, hc, hs, hb, ht, hl]

/-- C9 witness: a Secretary stage that throws produces the structured
catch result with the exception message and empty history. -/
theorem pipeline_returns_structured_failure_witness :
    runToolPipeline
      { configValid := true,
        secretary := .error "Secretary failed to parse boss input",
        builder := .error "unused",
        template := .error "unused",
        qa := fun _ _ => .error "unused",
        feedback := fun _ _ _ => .error "unused" } 3
      = pipelineCatch 0 [] "Secretary failed to parse boss input" :=
  (pipeline_returns_structured_failure
    { configValid := true,
      secretary := .error "Secretary failed to parse boss input",
      builder := .error "unused",
      template := .error "unused",
      qa := fun _ _ => .error "unused",
      feedback := fun _ _ _ => .error "unused" } 3).2.1
    "Secretary failed to parse boss input" rfl rfl

/-- C8: the Template Decider output handling strips surrounding markdown
code-fence markers deterministically before validation, and any payload
that after unwrapping does not start with the HTML envelope marker
(`<!DOCTYPE html>` or `<html`) yields an error rather than being passed
through: every `.ok` payload starts with the envelope marker, a fenced
HTML response is unwrapped to the inner HTML, and a non-HTML response is
rejected. -/
theorem template_output_unwrap_and_validate :
    (∀ (raw h : List Char), cleanTemplateOutput raw = .ok h →
      (startsWithL "<!DOCTYPE html>".data h || startsWithL "<html".data h) = true)
    ∧ runTemplateDeciderClean "```html\n<html>x</html>\n```" = .ok "<html>x</html>"
    ∧ runTemplateDeciderClean "Here is your tool"
        = .error "Template Decider did not return valid HTML" := by
  refine ⟨?_, rfl, rfl⟩
  intro raw h heq
  simp only [cleanTemplateOutput] at heq
  split at heq
  all_goals
    split at heq
    · exact absurd heq (by simp)
    · split at heq
      · exact absurd heq (by simp)
      · rename_i hcond hcond2
        rw [Except.ok.injEq] at heq
        subst heq
        simp only [Bool.not_eq_true', Bool.not_eq_false] at hcond
        exact hcond

/-- C8 witness: the unwrapped payload of a fenced response indeed starts
with the HTML envelope marker. -/
theorem template_output_unwrap_and_validate_witness :
    (startsWithL "<!DOCTYPE html>".data "<html>x</html>".data
      || startsWithL "<html".data "<html>x</html>".data) = true :=
  template_output_unwrap_and_validate.1
    "```html\n<html>x</html>\n```".data "<html>x</html>".data rfl

end FTTool
